import Mathlib

/-!
Verification of the CS2 coaching-tip pipeline (backend/services/pipelines/cs2
and backend/services/llm/gemini.py) against its natural-language specification.

The Python source is shallowly embedded: dictionaries become structures whose
fields are `Option`-typed when the source reads them with `.get`, floats
(video seconds, cooldown clocks) are modelled as `ℚ`, Python ints as `Int`,
and fallible constructions (pydantic validation, uncaught exceptions) return
`Except PyErr`.  Model (LLM) responses are free inputs: the deterministic
parsing / filtering code is embedded exactly and quantified over them.
-/

/-- Exceptions that the embedded code can raise (uncaught in the source). -/
inductive PyErr where
  | validationError (msg : String)
  | typeError (msg : String)
  | attributeError (msg : String)
  | valueError (msg : String)
deriving DecidableEq

/-- Does the character list `hay` start with `pre`? -/
def listStartsWith : List Char → List Char → Bool
  | [], _ => true
  | _ :: _, [] => false
  | p :: ps, h :: hs => p = h && listStartsWith ps hs

/-- Does `needle` occur as a contiguous sublist of `hay`? -/
def subOccurs (needle : List Char) : List Char → Bool
  | [] => listStartsWith needle []
  | c :: rest => listStartsWith needle (c :: rest) || subOccurs needle rest

/-- Python `needle in hay` on strings. -/
def strContains (hay needle : String) : Bool :=
  subOccurs needle.data hay.data

/-- Python whitespace for the purposes of `\s` in the source's regexes and
`json.loads`. -/
def isWsChar (c : Char) : Bool :=
  c = ' ' || c = '\n' || c = '\t' || c = '\r'

/-- `max(0.0, x)` from the source.  (`Max.max` on `ℚ` is stated through the
order structure; this literal `if` keeps the definition executable by
kernel reduction.) -/
def pyMax (a b : ℚ) : ℚ := if a ≤ b then b else a

/-- `str.lower()` for the ASCII names compared by the source. -/
def charToLower (c : Char) : Char :=
  if 'A' ≤ c ∧ c ≤ 'Z' then Char.ofNat (c.toNat + 32) else c

/-- `str.lower()`. -/
def strToLower (s : String) : String := ⟨s.data.map charToLower⟩

/-- `str.upper()` for the ASCII side strings compared by the source. -/
def charToUpper (c : Char) : Char :=
  if 'a' ≤ c ∧ c ≤ 'z' then Char.ofNat (c.toNat - 32) else c

/-- `str.upper()`. -/
def strToUpper (s : String) : String := ⟨s.data.map charToUpper⟩

/-- Equality on fallible results is decidable componentwise. -/
instance {ε α : Type} [DecidableEq ε] [DecidableEq α] : DecidableEq (Except ε α) :=
  fun a b =>
    match a, b with
    | .ok x, .ok y => if h : x = y then .isTrue (by rw [h]) else .isFalse (by simp [h])
    | .error x, .error y => if h : x = y then .isTrue (by rw [h]) else .isFalse (by simp [h])
    | .ok _, .error _ => .isFalse (by simp)
    | .error _, .ok _ => .isFalse (by simp)

/-- Format seconds as `M:SS`, mirroring
`f"{int(x // 60)}:{int(x % 60):02d}"` from `round_detector.py` (the argument
is always non-negative there, having been clamped with `max(0.0, ...)`). -/
def fmtMMSS (q : ℚ) : String :=
  let m : Int := ⌊q / 60⌋
  let s : Int := ⌊q⌋ - 60 * m
  toString m ++ ":" ++ (if s < 10 then "0" ++ toString s else toString s)

/-- JSON values as produced by `json.loads` in the source.  Numbers are
restricted to integers: every number the pipeline reads (`video_seconds`,
`confidence`, ticks) is an integer in the schema. -/
inductive Json where
  | null
  | bool (b : Bool)
  | num (n : Int)
  | str (s : String)
  | arr (elems : List Json)
  | obj (fields : List (String × Json))

/-- Python truthiness of a decoded JSON value (`if not data: ...` in
`parse_response` / `_parse_verification_response`). -/
def jsonFalsy : Json → Bool
  | .null => true
  | .bool b => !b
  | .num n => n = 0
  | .str s => s = ""
  | .arr xs => xs.isEmpty
  | .obj fs => fs.isEmpty

/-- Decimal digits to a natural number. -/
def digitsToNat : List Char → Nat → Nat
  | [], acc => acc
  | c :: rest, acc => digitsToNat rest (acc * 10 + (c.toNat - '0'.toNat))

mutual

/-- `json.loads`: parse one JSON value from the front of the input,
returning the value and the unconsumed remainder. -/
def jsonValue (fuel : Nat) (cs : List Char) : Option (Json × List Char) :=
  match fuel with
  | 0 => none
  | fuel + 1 =>
    let cs := cs.dropWhile isWsChar
    match cs with
    | [] => none
    | c :: rest =>
      if c = 'n' then
        if listStartsWith "ull".data rest then some (.null, rest.drop 3) else none
      else if c = 't' then
        if listStartsWith "rue".data rest then some (.bool true, rest.drop 3) else none
      else if c = 'f' then
        if listStartsWith "alse".data rest then some (.bool false, rest.drop 4) else none
      else if c = '"' then
        match jsonString fuel rest [] with
        | some (s, rest2) => some (.str s, rest2)
        | none => none
      else if c = '-' then
        match rest with
        | d :: _ =>
          if d.isDigit then
            let digits := rest.takeWhile Char.isDigit
            let rest2 := rest.dropWhile Char.isDigit
            some (.num (-(digitsToNat digits 0 : Int)), rest2)
          else none
        | [] => none
      else if c.isDigit then
        let digits := (c :: rest).takeWhile Char.isDigit
        let rest2 := (c :: rest).dropWhile Char.isDigit
        some (.num (digitsToNat digits 0 : Int), rest2)
      else if c = '[' then
        jsonArray fuel (rest.dropWhile isWsChar) []
      else if c = '\x7b' then
        jsonObject fuel (rest.dropWhile isWsChar) []
      else none

/-- Parse the remainder of a JSON string literal (after the opening quote),
with the source's common escapes. -/
def jsonString (fuel : Nat) (cs : List Char) (acc : List Char) : Option (String × List Char) :=
  match fuel with
  | 0 => none
  | fuel + 1 =>
    match cs with
    | [] => none
    | '"' :: rest => some (String.mk acc.reverse, rest)
    | '\\' :: e :: rest =>
      let ec : Option Char :=
        if e = '"' then some '"'
        else if e = '\\' then some '\\'
        else if e = '/' then some '/'
        else if e = 'n' then some '\n'
        else if e = 't' then some '\t'
        else if e = 'r' then some '\r'
        else none
      match ec with
      | some d => jsonString fuel rest (d :: acc)
      | none => none
    | c :: rest => jsonString fuel rest (c :: acc)

/-- Parse the elements of a JSON array after `[` (whitespace already
skipped), accumulating in reverse. -/
def jsonArray (fuel : Nat) (cs : List Char) (acc : List Json) : Option (Json × List Char) :=
  match fuel with
  | 0 => none
  | fuel + 1 =>
    match cs with
    | ']' :: rest => if acc.isEmpty then some (.arr [], rest) else none
    | _ =>
      match jsonValue fuel cs with
      | none => none
      | some (v, rest) =>
        let rest := rest.dropWhile isWsChar
        match rest with
        | ',' :: rest2 => jsonArray fuel (rest2.dropWhile isWsChar) (v :: acc)
        | ']' :: rest2 => some (.arr (v :: acc).reverse, rest2)
        | _ => none

/-- Parse the members of a JSON object after an opening brace (whitespace
already skipped), accumulating in reverse. -/
def jsonObject (fuel : Nat) (cs : List Char) (acc : List (String × Json)) : Option (Json × List Char) :=
  match fuel with
  | 0 => none
  | fuel + 1 =>
    match cs with
    | '\x7d' :: rest => if acc.isEmpty then some (.obj [], rest) else none
    | '"' :: rest =>
      match jsonString fuel rest [] with
      | none => none
      | some (k, rest2) =>
        match rest2.dropWhile isWsChar with
        | ':' :: rest3 =>
          match jsonValue fuel (rest3.dropWhile isWsChar) with
          | none => none
          | some (v, rest4) =>
            match rest4.dropWhile isWsChar with
            | ',' :: rest5 =>
              match rest5.dropWhile isWsChar with
              | '"' :: _ => jsonObject fuel (rest5.dropWhile isWsChar) ((k, v) :: acc)
              | _ => none
            | '\x7d' :: rest5 => some (.obj ((k, v) :: acc).reverse, rest5)
            | _ => none
        | _ => none
    | _ => none

end

/-- `json.loads` on a whole character list: one value, then only trailing
whitespace. -/
def jsonLoads (cs : List Char) : Option Json :=
  match jsonValue (cs.length + 1) cs with
  | some (v, rest) => if (rest.dropWhile isWsChar).isEmpty then some v else none
  | none => none

/-- Split `hay` at the first occurrence of `needle`, returning the part
before it and the part after it. -/
def splitAtFirst (needle : List Char) : List Char → Option (List Char × List Char)
  | [] => if needle.isEmpty then some ([], []) else none
  | c :: rest =>
    if listStartsWith needle (c :: rest) then some ([], (c :: rest).drop needle.length)
    else
      match splitAtFirst needle rest with
      | some (pre, post) => some (c :: pre, post)
      | none => none

/-- The capture of the first complete markdown fence in the text, mirroring
the regex search for a fenced block with an optional `json` tag and a lazy
body, in `BaseAgent._extract_json`. -/
def findFencedCapture : List Char → Option (List Char)
  | [] => none
  | c :: rest =>
    if listStartsWith "```".data (c :: rest) then
      let after := (c :: rest).drop 3
      let after := if listStartsWith "json".data after then after.drop 4 else after
      let after := after.dropWhile isWsChar
      match splitAtFirst "```".data after with
      | some (body, _) => some body
      | none => findFencedCapture rest
    else findFencedCapture rest

/-- The span of the source's raw-JSON regex (first opening brace through the
last closing brace of the text), when the text has an opening brace with a
later closing brace. -/
def braceSpan (cs : List Char) : Option (List Char) :=
  match splitAtFirst ['\x7b'] cs with
  | none => none
  | some (_, afterOpen) =>
    -- the greedy body runs to the last '\x7d' of the remaining text
    let revAfter := afterOpen.reverse
    match splitAtFirst ['\x7d'] revAfter with
    | none => none
    | some (_, beforeCloseRev) =>
      some ('\x7b' :: (beforeCloseRev.reverse ++ ['\x7d']))

/-- `BaseAgent._extract_json`: try a fenced code block, then the raw
first-brace-to-last-brace span; `None` when neither yields valid JSON. -/
def extract_json (text : String) : Option Json :=
  let viaBraces : Option Json :=
    match braceSpan text.data with
    | some body => jsonLoads body
    | none => none
  match findFencedCapture text.data with
  | some body =>
    match jsonLoads body with
    | some j => some j
    | none => viaBraces
  | none => viaBraces

/-! ## Data contracts (`pipelines/cs2/contracts.py`)

Pydantic models become structures; a field constraint (`ge=1, le=10` on
`confidence`) becomes a checked constructor returning `Except`, since
violating it raises a `ValidationError` in the source. -/

/-- `contracts.Timestamp`. -/
structure Timestamp where
  video_seconds : Int
  display : String
  game_time : Option String := none
deriving DecidableEq

/-- `contracts.CS2ObserverTip`. -/
structure CS2ObserverTip where
  id : String
  timestamp : Option Timestamp := none
  category : String
  severity : String := "important"
  observation : String
  why_it_matters : String
  fix : String
  reasoning : Option String := none
  recurring_timestamps : Option (List String) := none
deriving DecidableEq

/-- `contracts.RoundTimeline`: one observation window, video-relative. -/
structure RoundTimeline where
  round : Int
  start_seconds : ℚ
  start_time : String
  end_seconds : ℚ
  end_time : String
  death_seconds : Option ℚ := none
  death_time : Option String := none
  status : String
deriving DecidableEq

/-- `contracts.CS2VerifiedTip`. -/
structure CS2VerifiedTip where
  id : String
  timestamp : Option Timestamp := none
  category : String
  tip_text : String
  severity : String := "important"
  source : String
  confidence : Int
  verification_notes : Option String := none
deriving DecidableEq

/-- `contracts.CS2RemovedTip`. -/
structure CS2RemovedTip where
  id : String
  reason : String
  confidence : Int
deriving DecidableEq

/-- `contracts.CS2ValidatorOutput`. -/
structure CS2ValidatorOutput where
  verified_tips : List CS2VerifiedTip
  removed_tips : List CS2RemovedTip
  summary_text : String
deriving DecidableEq

/-- `contracts.CS2ObserverOutput`. -/
structure CS2ObserverOutput where
  tips : List CS2ObserverTip
  rounds_timeline : List RoundTimeline
deriving DecidableEq

/-- The entries `CS2ValidatorAgent.verify` stores in `pipeline_metadata`. -/
structure PipelineMetadata where
  observer_tips_count : Nat
  pre_filtered_count : Nat
  llm_removed_count : Nat
  verified_tips_count : Nat
  removed_tips_count : Nat
  removed_tips : List CS2RemovedTip
deriving DecidableEq

/-- `contracts.CS2PipelineOutput` (the `last_interaction_id` handle is an
opaque server token and is not modelled). -/
structure CS2PipelineOutput where
  tips : List CS2VerifiedTip
  rounds_timeline : List RoundTimeline
  summary_text : String
  pipeline_metadata : PipelineMetadata
deriving DecidableEq

/-- Construct a `CS2VerifiedTip`, enforcing pydantic's `ge=1, le=10` bound
on `confidence`. -/
def mkCS2VerifiedTip (id : String) (timestamp : Option Timestamp)
    (category tip_text severity source : String) (confidence : Int)
    (verification_notes : Option String) : Except PyErr CS2VerifiedTip :=
  if 1 ≤ confidence ∧ confidence ≤ 10 then
    .ok ⟨id, timestamp, category, tip_text, severity, source, confidence, verification_notes⟩
  else .error (.validationError ("CS2VerifiedTip.confidence: input should be between 1 and 10"))

/-- Construct a `CS2RemovedTip`, enforcing pydantic's `ge=1, le=10` bound on
`confidence` (`contracts.py` lines 98-105). -/
def mkCS2RemovedTip (id reason : String) (confidence : Int) : Except PyErr CS2RemovedTip :=
  if 1 ≤ confidence ∧ confidence ≤ 10 then .ok ⟨id, reason, confidence⟩
  else .error (.validationError ("CS2RemovedTip.confidence: input should be between 1 and 10"))

/-! ## Response parsing (`observer.py` / `validator.py`)

Each tip entry is parsed inside a `try/except` in the source, so a failure
(bad field type, pydantic bound) skips the entry: entry parsers return
`Option`.  Failures outside those `try` blocks propagate: the stage parsers
return `Except PyErr`. -/

/-- `.get(key, default)` for a field pydantic will check as `str`. -/
def getStrField (fs : List (String × Json)) (key dflt : String) : Option String :=
  match fs.lookup key with
  | none => some dflt
  | some (.str s) => some s
  | some _ => none

/-- `.get(key, default)` for a field pydantic will check as `int`. -/
def getIntField (fs : List (String × Json)) (key : String) (dflt : Int) : Option Int :=
  match fs.lookup key with
  | none => some dflt
  | some (.num n) => some n
  | some _ => none

/-- `.get(key)` for a pydantic `Optional[str]` field. -/
def getOptStrField (fs : List (String × Json)) (key : String) : Option (Option String) :=
  match fs.lookup key with
  | none => some none
  | some .null => some none
  | some (.str s) => some (some s)
  | some _ => none

/-- `.get(key)` for a pydantic `Optional[List[str]]` field. -/
def getOptStrListField (fs : List (String × Json)) (key : String) :
    Option (Option (List String)) :=
  match fs.lookup key with
  | none => some none
  | some .null => some none
  | some (.arr xs) =>
    ((xs.mapM (fun j => match j with | .str s => some s | _ => none) :
        Option (List String))).map some
  | some _ => none

/-- The `ts = tip.get("timestamp"); if ts: timestamp = Timestamp(...)`
block shared by both stage parsers: a falsy value leaves the timestamp
unset, a truthy non-dict raises (caught, so the tip is skipped). -/
def tipTimestamp (fs : List (String × Json)) : Option (Option Timestamp) :=
  match fs.lookup ("timestamp") with
  | none => some none
  | some ts =>
    if jsonFalsy ts then some none
    else
      match ts with
      | .obj tfs => do
        let vs ← getIntField tfs ("video_seconds") 0
        let d ← getStrField tfs ("display") ("0:00")
        some (some ⟨vs, d, none⟩)
      | _ => none

/-- Zero-padded tip counter: `f"tip_{n:03d}"`. -/
def pad3 (n : Nat) : String :=
  if n < 10 then "00" ++ toString n
  else if n < 100 then "0" ++ toString n
  else toString n

/-- Default id for the tip being parsed: `f"tip_{len(tips)+1:03d}"`. -/
def defaultTipId (count : Nat) : String := "tip_" ++ pad3 (count + 1)

/-- One entry of the Validator response's `verified_tips` list; `count` is
the number of tips successfully parsed so far. -/
def parseVerifiedTipEntry (count : Nat) (j : Json) : Option CS2VerifiedTip :=
  match j with
  | .obj fs => do
    let timestamp ← tipTimestamp fs
    let id ← getStrField fs ("id") (defaultTipId count)
    let category ← getStrField fs ("category") ("general")
    let tip_text ← getStrField fs ("tip_text") ("")
    let severity ← getStrField fs ("severity") ("important")
    let source ← getStrField fs ("source") ("observer")
    let confidence ← getIntField fs ("confidence") 8
    let notes ← getOptStrField fs ("verification_notes")
    (mkCS2VerifiedTip id timestamp category tip_text severity source confidence notes).toOption
  | _ => none

/-- The `for tip in data.get("verified_tips", [])` accumulation loop. -/
def collectVerifiedTips (entries : List Json) : List CS2VerifiedTip :=
  entries.foldl (fun acc j =>
    match parseVerifiedTipEntry acc.length j with
    | some t => acc ++ [t]
    | none => acc) []

/-- One entry of the Validator response's `removed_tips` list. -/
def parseRemovedTipEntry (j : Json) : Option CS2RemovedTip :=
  match j with
  | .obj fs => do
    let id ← getStrField fs ("id") ("unknown")
    let reason ← getStrField fs ("reason") ("Unknown reason")
    let confidence ← getIntField fs ("confidence") 1
    (mkCS2RemovedTip id reason confidence).toOption
  | _ => none

/-- The `for tip in data.get("removed_tips", [])` accumulation loop. -/
def collectRemovedTips (entries : List Json) : List CS2RemovedTip :=
  entries.foldl (fun acc j =>
    match parseRemovedTipEntry j with
    | some t => acc ++ [t]
    | none => acc) []

/-- `for x in value:` on a decoded JSON value: lists yield elements,
strings their characters, dicts their keys; other values raise. -/
def iterElems : Json → Except PyErr (List Json)
  | .arr xs => .ok xs
  | .str s => .ok (s.data.map (fun c => .str (String.mk [c])))
  | .obj fs => .ok (fs.map (fun kv => .str kv.1))
  | _ => .error (.typeError ("object is not iterable"))

/-- The deterministic summary clamp of `_parse_verification_response`:
below 50 characters a fixed fallback, above 400 characters a truncation to
397 characters plus an ellipsis, otherwise unchanged. -/
def clampSummary (s : String) : String :=
  if s.length < 50 then "Analysis complete. Check the tips below for improvement areas."
  else if s.length > 400 then String.mk (s.data.take 397) ++ "..."
  else s

/-- `summary_text = data.get("summary_text", "Analysis complete.")`
followed by the length clamp.  Non-string values follow the source's
exception behaviour (`len` / concatenation / pydantic), uncaught. -/
def resolveSummary : Option Json → Except PyErr String
  | none => .ok (clampSummary ("Analysis complete."))
  | some (.str s) => .ok (clampSummary s)
  | some (.arr xs) =>
    if xs.length < 50 then .ok ("Analysis complete. Check the tips below for improvement areas.")
    else if xs.length > 400 then .error (.typeError ("can only concatenate list to list"))
    else .error (.validationError ("summary_text: input should be a valid string"))
  | some (.obj fs) =>
    if fs.length < 50 then .ok ("Analysis complete. Check the tips below for improvement areas.")
    else if fs.length > 400 then .error (.typeError ("unsupported operand types"))
    else .error (.validationError ("summary_text: input should be a valid string"))
  | some _ => .error (.typeError ("object has no len"))

/-- Body of `CS2ValidatorAgent._parse_verification_response` after JSON
extraction succeeded with a truthy value. -/
def parse_verification_data (j : Json) : Except PyErr CS2ValidatorOutput :=
  match j with
  | .obj fs =>
    match iterElems ((fs.lookup ("verified_tips")).getD (.arr [])) with
    | .error e => .error e
    | .ok ventries =>
      match iterElems ((fs.lookup ("removed_tips")).getD (.arr [])) with
      | .error e => .error e
      | .ok rentries =>
        match resolveSummary (fs.lookup ("summary_text")) with
        | .error e => .error e
        | .ok summary =>
          .ok ⟨collectVerifiedTips ventries, collectRemovedTips rentries, summary⟩
  | _ => .error (.attributeError ("object has no attribute get"))

/-- The fixed output `_parse_verification_response` returns when the
response has no parsable JSON. -/
def verificationFallback : CS2ValidatorOutput :=
  ⟨[], [], "Verification failed. Please try again."⟩

/-- `CS2ValidatorAgent._parse_verification_response`. -/
def parse_verification_response (response_text : String) : Except PyErr CS2ValidatorOutput :=
  match extract_json response_text with
  | none => .ok verificationFallback
  | some j => if jsonFalsy j then .ok verificationFallback else parse_verification_data j

/-- One entry of the Observer response's `tips` list. -/
def parseObserverTipEntry (count : Nat) (j : Json) : Option CS2ObserverTip :=
  match j with
  | .obj fs => do
    let timestamp ← tipTimestamp fs
    let id ← getStrField fs ("id") (defaultTipId count)
    let category ← getStrField fs ("category") ("general")
    let severity ← getStrField fs ("severity") ("important")
    let observation ← getStrField fs ("observation") ("")
    let why_it_matters ← getStrField fs ("why_it_matters") ("")
    let fix ← getStrField fs ("fix") ("")
    let reasoning ← getOptStrField fs ("reasoning")
    let recurring ← getOptStrListField fs ("recurring_timestamps")
    some ⟨id, timestamp, category, severity, observation, why_it_matters, fix, reasoning, recurring⟩
  | _ => none

/-- The `for tip in data.get("tips", [])` accumulation loop. -/
def collectObserverTips (entries : List Json) : List CS2ObserverTip :=
  entries.foldl (fun acc j =>
    match parseObserverTipEntry acc.length j with
    | some t => acc ++ [t]
    | none => acc) []

/-- Sort key of `tips.sort(key=lambda t: t.timestamp.video_seconds if
t.timestamp else 0)`. -/
def observerSortKey (t : CS2ObserverTip) : Int :=
  match t.timestamp with
  | some ts => ts.video_seconds
  | none => 0

/-- Body of `CS2ObserverAgent.parse_response` after JSON extraction
succeeded with a truthy value.  `list.sort` is a stable sort; it is modelled
by a stable insertion sort, which computes the same list. -/
def parse_observer_data (j : Json) : Except PyErr CS2ObserverOutput :=
  match j with
  | .obj fs =>
    match iterElems ((fs.lookup ("tips")).getD (.arr [])) with
    | .error e => .error e
    | .ok entries =>
      .ok ⟨(collectObserverTips entries).insertionSort
             (fun a b => observerSortKey a ≤ observerSortKey b), []⟩
  | _ => .error (.attributeError ("object has no attribute get"))

/-- `CS2ObserverAgent.parse_response`. -/
def cs2_observer_parse_response (response_text : String) : Except PyErr CS2ObserverOutput :=
  match extract_json response_text with
  | none => .ok ⟨[], []⟩
  | some j => if jsonFalsy j then .ok ⟨[], []⟩ else parse_observer_data j

/-! ## Pre-filter (`CS2ValidatorAgent._pre_filter_by_alive_time`) -/

/-- The valid upper bound of a window: the death time when set, else the
round end (`end = r.death_seconds if r.death_seconds is not None else
r.end_seconds`). -/
def aliveBound (r : RoundTimeline) : ℚ :=
  r.death_seconds.getD r.end_seconds

/-- The rejection reason string, including the round/death lookup loop that
annotates the reason when the timestamp lies inside some window's
`[start_seconds, end_seconds]`. -/
def preFilterReason (timeline : List RoundTimeline) (disp : String) (t : ℚ) : String :=
  let round_info :=
    match timeline.find? (fun r => decide (r.start_seconds ≤ t ∧ t ≤ r.end_seconds)) with
    | some r =>
      if r.death_seconds ≠ none then
        " (Round " ++ toString r.round ++ ": player died at " ++
          (match r.death_time with | some s => s | none => "None") ++ ")"
      else ""
    | none => ""
  "Timestamp " ++ disp ++ " is outside POV player's alive time" ++ round_info

/-- The `for tip in tips:` loop of the pre-filter, with accumulators kept
in reverse; constructing a rejection record can raise (pydantic), aborting
the whole loop as in the source. -/
def preFilterGo (timeline : List RoundTimeline) :
    List CS2ObserverTip → List CS2ObserverTip → List CS2RemovedTip →
    Except PyErr (List CS2ObserverTip × List CS2RemovedTip)
  | [], vs, rs => .ok (vs.reverse, rs.reverse)
  | tip :: rest, vs, rs =>
    match tip.timestamp with
    | none => preFilterGo timeline rest (tip :: vs) rs
    | some ts =>
      let t : ℚ := (ts.video_seconds : ℚ)
      if timeline.any (fun r => decide (r.start_seconds ≤ t ∧ t ≤ aliveBound r)) then
        preFilterGo timeline rest (tip :: vs) rs
      else
        match mkCS2RemovedTip tip.id (preFilterReason timeline ts.display t) 0 with
        | .ok rt => preFilterGo timeline rest vs (rt :: rs)
        | .error e => .error e

/-- `CS2ValidatorAgent._pre_filter_by_alive_time`. -/
def pre_filter_by_alive_time (tips : List CS2ObserverTip) (timeline : List RoundTimeline) :
    Except PyErr (List CS2ObserverTip × List CS2RemovedTip) :=
  if timeline.isEmpty then .ok (tips, [])
  else preFilterGo timeline tips [] []

/-- The deterministic tail of `CS2ValidatorAgent.verify`: pre-filter, parse
the verification response (`response_text` is the model's reply, a free
input), and assemble the final `CS2PipelineOutput`, with no re-sorting of
the verified tips. -/
def cs2_verify_result (observer_tips : List CS2ObserverTip) (timeline : List RoundTimeline)
    (response_text : String) : Except PyErr CS2PipelineOutput :=
  match pre_filter_by_alive_time observer_tips timeline with
  | .error e => .error e
  | .ok (_valid, pre_removed) =>
    match parse_verification_response response_text with
    | .error e => .error e
    | .ok vo =>
      let all_removed := pre_removed ++ vo.removed_tips
      .ok ⟨vo.verified_tips, timeline, vo.summary_text,
           ⟨observer_tips.length, pre_removed.length, vo.removed_tips.length,
            vo.verified_tips.length, all_removed.length, all_removed⟩⟩

/-! ## Timeline Builder (`round_detector.build_rounds_timeline_from_demo`)

The demo-data dictionary is embedded with `Option` fields exactly where the
source reads keys with `.get`; seconds are `ℚ` (the source uses float
division of tick differences by the tick rate). -/

/-- One entry of `summary["players"]`; the source reads both keys with
`.get(..., "")`. -/
structure PlayerRec where
  name : String := ""
  starting_side : String := ""
deriving DecidableEq

/-- One entry of `demo_data["kills"]`. -/
structure KillRec where
  victim : Option String := none
  round_num : Option Int := none
  tick : Option Int := none
deriving DecidableEq

/-- One entry of `demo_data["rounds"]`. -/
structure RoundRec where
  round_num : Option Int := none
  start_tick : Option Int := none
  end_tick : Option Int := none
  winner : Option String := none
deriving DecidableEq

/-- `demo_data["summary"]` (defaults to an empty dict). -/
structure DemoSummary where
  players : List PlayerRec := []
  tickrate : Option ℚ := none
deriving DecidableEq

/-- The demo-data dictionary as read by the timeline builder. -/
structure DemoData where
  summary : DemoSummary := {}
  rounds : List RoundRec := []
  kills : List KillRec := []
  video_start_tick : Option Int := none
  pov_player : Option String := none
deriving DecidableEq

/-- `tickrate = summary.get("tickrate", 64)`. -/
def resolveTickrate (demo : DemoData) : ℚ :=
  demo.summary.tickrate.getD 64

/-- `video_start_tick`, falling back to the first round's `start_tick`
(the zero default is unreachable: the builder returns early when there are
no rounds). -/
def resolveVst (demo : DemoData) : Int :=
  match demo.video_start_tick with
  | some v => v
  | none =>
    match demo.rounds with
    | [] => 0
    | r :: _ => r.start_tick.getD 0

/-- The POV player name: the argument, else `demo_data["pov_player"]`, with
Python truthiness (an empty name counts as absent in every later
`if pov_player:` guard). -/
def resolvePov (demo : DemoData) (pov_arg : Option String) : Option String :=
  let p := match pov_arg with | some q => some q | none => demo.pov_player
  match p with
  | some q => if q = "" then none else some q
  | none => none

/-- The POV player's starting side: first matching player (name compared
lowercased), side uppercased, `None` when the side string is falsy. -/
def resolvePovSide (demo : DemoData) (pov_arg : Option String) : Option String :=
  match resolvePov demo pov_arg with
  | none => none
  | some p =>
    match demo.summary.players.find? (fun pl => strToLower pl.name = strToLower p) with
    | none => none
    | some pl => if pl.starting_side = "" then none else some (strToUpper pl.starting_side)

/-- The `death_by_round` dict: first kill of the POV player per round wins;
insertion is modelled by consing (keys are unique, so lookups agree with
the Python dict). -/
def deathByRound (demo : DemoData) (pov_arg : Option String) : List (Int × Int) :=
  match resolvePov demo pov_arg with
  | none => []
  | some p =>
    demo.kills.foldl (fun acc k =>
      if strToLower (k.victim.getD "") = strToLower p then
        let rn := k.round_num.getD 0
        if (acc.lookup rn).isNone then (rn, k.tick.getD 0) :: acc else acc
      else acc) []

/-- The timeline entry built for one round record (the loop body of
`build_rounds_timeline_from_demo`).  `if death_tick:` is a truthiness
check, so a recorded death tick of `0` leaves the death fields unset. -/
def mkTimelineEntry (deaths : List (Int × Int)) (vst : Int) (tickrate : ℚ)
    (pov_side : Option String) (rnd : RoundRec) : RoundTimeline :=
  let round_num := rnd.round_num.getD 0
  let start_tick := rnd.start_tick.getD 0
  let end_tick := rnd.end_tick.getD 0
  let winner_raw := rnd.winner.getD ""
  let round_winner := if winner_raw = "" then none else some (strToUpper winner_raw)
  let start_seconds := pyMax 0 (((start_tick - vst : Int) : ℚ) / tickrate)
  let end_seconds := pyMax 0 (((end_tick - vst : Int) : ℚ) / tickrate)
  let dp : Option ℚ × Option String :=
    match deaths.lookup round_num with
    | some dt =>
      if dt = 0 then (none, none)
      else
        let ds := pyMax 0 (((dt - vst : Int) : ℚ) / tickrate)
        (some ds, some (fmtMMSS ds))
    | none => (none, none)
  let status :=
    match pov_side, round_winner with
    | some ps, some rw =>
      let side_this := if round_num ≤ 12 then ps else if ps = "CT" then "T" else "CT"
      if rw = side_this then "win" else "loss"
    | _, _ => "unknown"
  ⟨round_num, start_seconds, fmtMMSS start_seconds, end_seconds, fmtMMSS end_seconds,
   dp.1, dp.2, status⟩

/-- `round_detector.build_rounds_timeline_from_demo`. -/
def build_rounds_timeline_from_demo (demo : DemoData) (pov_player : Option String) :
    List RoundTimeline :=
  if demo.rounds = [] then []
  else
    demo.rounds.map
      (mkTimelineEntry (deathByRound demo pov_player) (resolveVst demo)
        (resolveTickrate demo) (resolvePovSide demo pov_player))

/-! ## Model Gateway (`llm/gemini.py`)

The provider's mutable key pool is threaded explicitly; wall-clock reads
(`time.time()`) become a `now` parameter; endpoint responses are a free
oracle indexed by call number, and each embedded operation also returns how
many endpoint calls it made. -/

/-- `llm/base.LLMResponse`. -/
structure LLMResponse where
  content : String
  model : String
  provider : String
  error : Option String := none
deriving DecidableEq

/-- `gemini.VideoAnalysisResult`. -/
structure VideoAnalysisResult where
  content : String
  model : String
  provider : String
  file_name : String
  error : Option String := none
deriving DecidableEq

/-- The mutable state of a `GeminiProvider` instance: key pool, rotation
index, per-index cooldown deadlines, enable flag, configured model, and
which key the client object is configured with. -/
structure GeminiState where
  api_keys : List String
  current_key_index : Nat
  key_cooldowns : List (Nat × ℚ)
  enabled : Bool := true
  model : String
  configured_key : Option String := none
deriving DecidableEq

/-- `self._key_cooldowns.get(idx, 0)`. -/
def cooldownOf (s : GeminiState) (idx : Nat) : ℚ :=
  (s.key_cooldowns.lookup idx).getD 0

/-- `self._key_cooldowns[idx] = t` (cons with dedup keeps lookups equal to
the Python dict's). -/
def setCooldown (s : GeminiState) (idx : Nat) (t : ℚ) : GeminiState :=
  { s with key_cooldowns := (idx, t) :: s.key_cooldowns.filter (fun kv => kv.1 != idx) }

/-- The scan of `_get_current_api_key`: indices `(current + i) % len` for
`i` in `range(len)`, first whose cooldown deadline has passed. -/
def findAvailableIdx (s : GeminiState) (now : ℚ) : List Nat → Option Nat
  | [] => none
  | i :: rest =>
    let idx := (s.current_key_index + i) % s.api_keys.length
    if cooldownOf s idx ≤ now then some idx else findAvailableIdx s now rest

/-- `GeminiProvider._get_current_api_key` (also moves the rotation index to
the key it returns). -/
def get_current_api_key (s : GeminiState) (now : ℚ) : Option String × GeminiState :=
  if s.api_keys.isEmpty then (none, s)
  else
    match findAvailableIdx s now (List.range s.api_keys.length) with
    | some idx => (some (s.api_keys.getD idx ""), { s with current_key_index := idx })
    | none => (none, s)

/-- `GeminiProvider.is_available` (key present and provider enabled). -/
def gemini_is_available (s : GeminiState) (now : ℚ) : Bool :=
  (get_current_api_key s now).1.isSome && s.enabled

/-- `GeminiProvider._rotate_key_on_rate_limit`: with a pool of at most one
key it does nothing and reports failure; otherwise it puts the current key
on a 24-hour (86400 s) cooldown and advances to the next available key. -/
def rotate_key_on_rate_limit (s : GeminiState) (now : ℚ) : GeminiState × Bool :=
  if s.api_keys.length ≤ 1 then (s, false)
  else
    let old := s.current_key_index
    let s1 := setCooldown s old (now + 86400)
    match get_current_api_key s1 now with
    | (some _, s2) =>
      if s2.current_key_index ≠ old then ({ s2 with configured_key := none }, true)
      else (s2, false)
    | (none, s2) => (s2, false)

/-- `GeminiProvider._is_rate_limit_error` on the error's message. -/
def isRateLimitError (msg : String) : Bool :=
  let l := strToLower msg
  strContains l ("429") || strContains l ("rate limit") || strContains l ("quota") ||
    strContains l ("resource exhausted")

/-- The file-permission check in `GeminiProvider.analyze_video`. -/
def isFilePermissionError (msg : String) : Bool :=
  let l := strToLower msg
  strContains l ("do not have permission to access") || strContains l ("may not exist")

/-- `GeminiProvider._get_client`: raises `ValueError` when no key is
available, else records the configured key. -/
def get_client (s : GeminiState) (now : ℚ) : Except PyErr GeminiState :=
  match get_current_api_key s now with
  | (none, _) => .error (.valueError ("No Gemini API key available (all keys on cooldown)"))
  | (some k, s1) => .ok { s1 with configured_key := some k }

/-- `GeminiProvider.generate`.  The unavailable branch returns the error
response without contacting the endpoint.  Any available branch then
evaluates `self.MODELS` — an attribute defined neither on `GeminiProvider`
nor on `LLMProvider` — so the loop body raises an uncaught
`AttributeError` before any endpoint call; the third component counts
endpoint calls (always zero). -/
def gemini_generate (s : GeminiState) (now : ℚ) :
    Except PyErr LLMResponse × GeminiState × Nat :=
  let (key0, s0) := get_current_api_key s now
  if !(key0.isSome && s.enabled) then
    (.ok ⟨"", s.model, "gemini",
      some ("GEMINI_API_KEY not configured or all keys on cooldown")⟩, s0, 0)
  else
    match get_client s0 now with
    | .error (.valueError m) =>
      (.ok ⟨"", s.model, "gemini",
        some ("All Gemini API keys/models failed. Last error: " ++ m)⟩, s0, 0)
    | .error e => (.error e, s0, 0)
    | .ok s1 =>
      (.error (.attributeError ("GeminiProvider object has no attribute MODELS")), s1, 0)

/-- Outcome of one combined endpoint attempt (`get_file` +
`generate_content`) in `analyze_video`. -/
inductive CallResult where
  | success (content : String)
  | failure (err : String)
deriving DecidableEq

/-- The `for key_attempt in range(max_key_attempts)` loop of
`GeminiProvider.analyze_video`.  Arguments after the oracles: attempts
left, provider state, current file name, endpoint calls made, uploads
attempted, `last_error`. -/
def analyzeVideoGo (now : ℚ) (oracle : Nat → CallResult) (uploads : Nat → Option String)
    (modelName : String) (videoPath : Option String) :
    Nat → GeminiState → String → Nat → Nat → Option String →
    VideoAnalysisResult × GeminiState × Nat
  | 0, s, fname, calls, _, lastErr =>
    (⟨"", modelName, "gemini", fname, some (lastErr.getD "Unknown error")⟩, s, calls)
  | fuel + 1, s, fname, calls, u, _lastErr =>
    match get_client s now with
    | .error (.valueError m) =>
      -- caught by the blanket `except Exception`; neither a rate-limit nor a
      -- permission error, so the loop breaks with this as `last_error`
      (⟨"", modelName, "gemini", fname, some m⟩, s, calls)
    | .error _ => (⟨"", modelName, "gemini", fname, some ("unreachable")⟩, s, calls)
    | .ok s1 =>
      match oracle calls with
      | .success c => (⟨c, modelName, "gemini", fname, none⟩, s1, calls + 1)
      | .failure e =>
        if isRateLimitError e || isFilePermissionError e then
          match rotate_key_on_rate_limit s1 now with
          | (s2, true) =>
            match videoPath with
            | none => analyzeVideoGo now oracle uploads modelName videoPath
                fuel s2 fname (calls + 1) u (some e)
            | some _ =>
              match uploads u with
              | some newName => analyzeVideoGo now oracle uploads modelName videoPath
                  fuel s2 newName (calls + 1) (u + 1) (some e)
              | none =>
                -- re-upload raised: logged, then the loop breaks
                (⟨"", modelName, "gemini", fname, some e⟩, s2, calls + 1)
          | (s2, false) => (⟨"", modelName, "gemini", fname, some e⟩, s2, calls + 1)
        else (⟨"", modelName, "gemini", fname, some e⟩, s1, calls + 1)

/-- `GeminiProvider.analyze_video`: availability guard, then up to
`len(api_keys)` attempts with rotate-and-retry (and optional re-upload) on
rate-limit signals. -/
def gemini_analyze_video (s : GeminiState) (now : ℚ) (oracle : Nat → CallResult)
    (uploads : Nat → Option String) (modelName fname : String)
    (videoPath : Option String) : VideoAnalysisResult × GeminiState × Nat :=
  let (key0, s0) := get_current_api_key s now
  if !(key0.isSome && s.enabled) then
    (⟨"", s.model, "gemini", fname,
      some ("GEMINI_API_KEY not configured or all keys on cooldown")⟩, s0, 0)
  else
    analyzeVideoGo now oracle uploads modelName videoPath
      s0.api_keys.length s0 fname 0 0 none

/-! ## Concrete inputs used by the individual claims -/

/-- A window in which the subject died at 30 s (round ends at 60 s). -/
def c1Window : RoundTimeline :=
  ⟨1, 0, "0:00", 60, "1:00", some 30, some ("0:30"), "loss"⟩

/-- A candidate tip timestamped 45 s: after the death, inside the round. -/
def c1Tip : CS2ObserverTip :=
  { id := "tip_001", timestamp := some ⟨45, "0:45", none⟩, category := "positioning",
    severity := "important", observation := "peeked mid", why_it_matters := "risk",
    fix := "hold the angle" }

/-- A Validator reply whose only verified tip carries confidence 3. -/
def c2Response : String :=
  "Here is the verification:\n\x7b\"verified_tips\": [\x7b\"id\": \"tip_001\", " ++
  "\"timestamp\": \x7b\"video_seconds\": 45, \"display\": \"0:45\"\x7d, " ++
  "\"category\": \"aim\", \"severity\": \"minor\", " ++
  "\"tip_text\": \"Keep your crosshair at head level.\", \"source\": \"observer\", " ++
  "\"confidence\": 3\x7d], \"removed_tips\": [], " ++
  "\"summary_text\": \"Work on crosshair placement and timing; vary your peeks " ++
  "and you will win far more duels in your next match.\"\x7d"

/-- A demo dataset whose second round has `end_tick` before `start_tick`. -/
def c3Demo : DemoData :=
  { rounds := [{ round_num := some 1, start_tick := some 0, end_tick := some 6400 },
               { round_num := some 2, start_tick := some 12800, end_tick := some 6400 }] }

/-- A well-formed one-round demo (tick rate 64, death inside the round). -/
def c3wDemo : DemoData :=
  { summary := { players := [{ name := "Bob", starting_side := "CT" }] },
    rounds := [{ round_num := some 1, start_tick := some 0, end_tick := some 6400,
                 winner := some ("ct") }],
    kills := [{ victim := some ("Bob"), round_num := some 1, tick := some 3200 }],
    pov_player := some ("Bob") }

/-- Free-text model output with no JSON structure anywhere. -/
def c4Response : String :=
  "The model refused to produce any structured output for this request."

/-- A two-key pool in which both keys are cooling down at time 500. -/
def c5State : GeminiState :=
  ⟨["key-a", "key-b"], 0, [(0, 1000), (1, 2000)], true, "gemini-3-pro-preview", none⟩

/-- A single-credential pool with no cooldowns recorded. -/
def c6SingleKey : GeminiState :=
  ⟨["only-key"], 0, [], true, "gemini-3-pro-preview", none⟩

/-- Endpoint behaviour: the first attempt rate-limits, later attempts
succeed. -/
def c6Oracle : Nat → CallResult :=
  fun n => if n = 0 then .failure ("429 rate limit exceeded for this key")
           else .success ("Round-by-round analysis text")

/-- A Validator reply whose summary is only 60 characters long. -/
def c7Response : String :=
  "\x7b\"verified_tips\": [], \"removed_tips\": [], \"summary_text\": \"" ++
    String.mk (List.replicate 60 'a') ++ "\"\x7d"

/-- Decoded Validator data with a 120-character summary. -/
def c7wData : Json :=
  .obj [("verified_tips", .arr []), ("removed_tips", .arr []),
        ("summary_text", .str (String.mk (List.replicate 120 'a')))]

/-- The output expected for `c7wData`. -/
def c7wOut : CS2ValidatorOutput :=
  ⟨[], [], String.mk (List.replicate 120 'a')⟩

/-- A Validator reply listing its verified tips in descending timestamp
order (100 s before 50 s). -/
def c8Response : String :=
  "\x7b\"verified_tips\": [" ++
  "\x7b\"id\": \"tip_002\", \"timestamp\": \x7b\"video_seconds\": 100, \"display\": \"1:40\"\x7d, " ++
  "\"category\": \"utility\", \"severity\": \"minor\", \"tip_text\": \"Smoke earlier.\", " ++
  "\"source\": \"observer\", \"confidence\": 9\x7d, " ++
  "\x7b\"id\": \"tip_001\", \"timestamp\": \x7b\"video_seconds\": 50, \"display\": \"0:50\"\x7d, " ++
  "\"category\": \"aim\", \"severity\": \"minor\", \"tip_text\": \"Aim higher.\", " ++
  "\"source\": \"observer\", \"confidence\": 9\x7d], \"removed_tips\": [], " ++
  "\"summary_text\": \"Focus on utility timing and crosshair placement to convert " ++
  "more of your opening duels into round wins.\"\x7d"

/-- An Observer reply listing tips out of order (9 s after 4 s). -/
def c8wResponse : String :=
  "\x7b\"tips\": [" ++
  "\x7b\"id\": \"a\", \"timestamp\": \x7b\"video_seconds\": 9, \"display\": \"0:09\"\x7d, " ++
  "\"category\": \"c\", \"severity\": \"minor\", \"observation\": \"o\", " ++
  "\"why_it_matters\": \"w\", \"fix\": \"f\"\x7d, " ++
  "\x7b\"id\": \"b\", \"timestamp\": \x7b\"video_seconds\": 4, \"display\": \"0:04\"\x7d, " ++
  "\"category\": \"c\", \"severity\": \"minor\", \"observation\": \"o\", " ++
  "\"why_it_matters\": \"w\", \"fix\": \"f\"\x7d]\x7d"

/-- The sorted output expected for `c8wResponse`. -/
def c8wOut : CS2ObserverOutput :=
  ⟨[{ id := "b", timestamp := some ⟨4, "0:04", none⟩, category := "c", severity := "minor",
      observation := "o", why_it_matters := "w", fix := "f" },
    { id := "a", timestamp := some ⟨9, "0:09", none⟩, category := "c", severity := "minor",
      observation := "o", why_it_matters := "w", fix := "f" }], []⟩

/-- A small demo dataset for the determinism witness. -/
def c9Demo : DemoData :=
  { summary := { players := [{ name := "Ann", starting_side := "T" }], tickrate := some 128 },
    rounds := [{ round_num := some 3, start_tick := some 1000, end_tick := some 9000,
                 winner := some ("T") }],
    kills := [{ victim := some ("Ann"), round_num := some 3, tick := some 5000 }],
    video_start_tick := some 1000,
    pov_player := some ("Ann") }

/-- A demo whose only kill of the subject is recorded with tick 0. -/
def c10Demo : DemoData :=
  { rounds := [{ round_num := some 1, start_tick := some 0, end_tick := some 640 }],
    kills := [{ victim := some ("Ann"), round_num := some 1, tick := some 0 }],
    pov_player := some ("Ann") }

/-- The round record of `c10Demo`. -/
def c10Round : RoundRec :=
  { round_num := some 1, start_tick := some 0, end_tick := some 640 }

/-! ## Helper lemmas -/

set_option maxRecDepth 100000

/-- `pyMax 0` is monotone. -/
theorem pyMax_zero_mono {a b : ℚ} (h : a ≤ b) : pyMax 0 a ≤ pyMax 0 b := by
  unfold pyMax
  split_ifs with h1 h2 <;> linarith

/-- Converting ticks to clamped video seconds preserves tick order when the
tick rate is positive. -/
theorem clampedSeconds_mono {a b vst : Int} {q : ℚ} (hq : 0 < q) (h : a ≤ b) :
    pyMax 0 (((a - vst : Int) : ℚ) / q) ≤ pyMax 0 (((b - vst : Int) : ℚ) / q) := by
  apply pyMax_zero_mono
  apply (div_le_div_iff_of_pos_right hq).mpr
  exact_mod_cast sub_le_sub_right h vst

/-- Any association found by lookup in the death fold comes from the
accumulator or from some kill in the folded list. -/
theorem deathFold_lookup (p : String) (ks : List KillRec) (acc : List (Int × Int))
    (rn dt : Int)
    (h : ((ks.foldl (fun acc k =>
        if strToLower (k.victim.getD "") = strToLower p then
          if ((acc.lookup (k.round_num.getD 0)).isNone) then
            (k.round_num.getD 0, k.tick.getD 0) :: acc
          else acc
        else acc) acc).lookup rn) = some dt) :
    acc.lookup rn = some dt ∨
      ∃ k ∈ ks, k.round_num.getD 0 = rn ∧ k.tick.getD 0 = dt := by
  induction ks generalizing acc with
  | nil => exact .inl h
  | cons k ks ih =>
    simp only [List.foldl_cons] at h
    rcases ih _ h with h1 | h2
    · by_cases hv : strToLower (k.victim.getD "") = strToLower p
      · rw [if_pos hv] at h1
        by_cases hn : ((acc.lookup (k.round_num.getD 0)).isNone)
        · rw [if_pos hn] at h1
          by_cases he : rn = k.round_num.getD 0
          · right
            refine ⟨k, List.mem_cons_self _ _, he.symm, ?_⟩
            simp only [List.lookup, he, beq_self_eq_true] at h1
            exact Option.some_inj.mp h1
          · left
            simpa only [List.lookup, beq_eq_false_iff_ne.mpr he] using h1
        · rw [if_neg hn] at h1
          exact .inl h1
      · rw [if_neg hv] at h1
        exact .inl h1
    · obtain ⟨k', hk', hrest⟩ := h2
      exact .inr ⟨k', List.mem_cons_of_mem _ hk', hrest⟩

/-- A death recorded for a round comes from some kill of the POV player
with that round number and that tick. -/
theorem deathByRound_lookup_mem {demo : DemoData} {pov : Option String} {rn dt : Int}
    (h : (deathByRound demo pov).lookup rn = some dt) :
    ∃ k ∈ demo.kills, k.round_num.getD 0 = rn ∧ k.tick.getD 0 = dt := by
  unfold deathByRound at h
  cases hp : resolvePov demo pov with
  | none => rw [hp] at h; simp [List.lookup] at h
  | some p =>
    rw [hp] at h
    rcases deathFold_lookup p demo.kills [] rn dt h with h1 | h2
    · simp [List.lookup] at h1
    · exact h2

/-- The deterministic summary clamp always lands in [50, 400] characters. -/
theorem clampSummary_bounds (s : String) :
    50 ≤ (clampSummary s).length ∧ (clampSummary s).length ≤ 400 := by
  unfold clampSummary
  split_ifs with h1 h2
  · decide
  · have hsl : s.length = s.data.length := rfl
    have h3 : (String.mk (s.data.take 397)).length = 397 := by
      show (s.data.take 397).length = 397
      rw [List.length_take]
      omega
    have h4 := String.length_append (String.mk (s.data.take 397)) ("...")
    have h5 : ("..." : String).length = 3 := by decide
    omega
  · omega

/-- Whenever the summary field resolves without raising, the resulting
summary has between 50 and 400 characters. -/
theorem resolveSummary_bounds (o : Option Json) (s : String)
    (h : resolveSummary o = .ok s) :
    50 ≤ s.length ∧ s.length ≤ 400 := by
  match o with
  | none =>
    simp only [resolveSummary, Except.ok.injEq] at h
    subst h
    exact clampSummary_bounds _
  | some (.str t) =>
    simp only [resolveSummary, Except.ok.injEq] at h
    subst h
    exact clampSummary_bounds _
  | some .null | some (.bool _) | some (.num _) =>
    simp [resolveSummary] at h
  | some (.arr xs) =>
    simp only [resolveSummary] at h
    split_ifs at h
    · obtain rfl := Except.ok.inj h
      decide
  | some (.obj fs) =>
    simp only [resolveSummary] at h
    split_ifs at h
    · obtain rfl := Except.ok.inj h
      decide

/-- When every slot of the pool is cooling down, the index scan finds
nothing. -/
theorem findAvailableIdx_eq_none (s : GeminiState) (now : ℚ)
    (hne : s.api_keys ≠ [])
    (hc : ∀ i < s.api_keys.length, now < cooldownOf s i) :
    ∀ l, findAvailableIdx s now l = none := by
  intro l
  induction l with
  | nil => rfl
  | cons i rest ih =>
    unfold findAvailableIdx
    have hmod : (s.current_key_index + i) % s.api_keys.length < s.api_keys.length :=
      Nat.mod_lt _ (List.length_pos.mpr hne)
    rw [if_neg (not_le.mpr (hc _ hmod))]
    exact ih

/-- When every key of a non-empty pool is cooling down, no key is
returned and the state is untouched. -/
theorem get_current_api_key_none (s : GeminiState) (now : ℚ)
    (hne : s.api_keys ≠ [])
    (hc : ∀ i < s.api_keys.length, now < cooldownOf s i) :
    get_current_api_key s now = (none, s) := by
  unfold get_current_api_key
  rw [if_neg (by simp [List.isEmpty_iff, hne]), findAvailableIdx_eq_none s now hne hc]

/-- Selecting a key never touches the cooldown table. -/
theorem get_current_api_key_cooldowns (s : GeminiState) (now : ℚ) :
    ((get_current_api_key s now).2).key_cooldowns = s.key_cooldowns := by
  unfold get_current_api_key
  split
  · rfl
  · split <;> rfl

/-- With at least two keys in the pool, a rotation records a 24-hour
cooldown for the key that was current. -/
theorem rotate_sets_cooldown (s : GeminiState) (now : ℚ) (h2 : 2 ≤ s.api_keys.length) :
    cooldownOf (rotate_key_on_rate_limit s now).1 s.current_key_index = now + 86400 := by
  unfold rotate_key_on_rate_limit
  rw [if_neg (by omega)]
  dsimp only
  have hcd : ∀ s2 : GeminiState,
      s2.key_cooldowns = (setCooldown s s.current_key_index (now + 86400)).key_cooldowns →
      cooldownOf s2 s.current_key_index = now + 86400 := by
    intro s2 hk
    unfold cooldownOf
    rw [hk]
    simp [setCooldown, List.lookup]
  have hpres := get_current_api_key_cooldowns
    (setCooldown s s.current_key_index (now + 86400)) now
  cases hg : get_current_api_key (setCooldown s s.current_key_index (now + 86400)) now with
  | mk fst snd =>
    rw [hg] at hpres
    dsimp only at hpres
    cases fst with
    | none => exact hcd snd hpres
    | some k =>
      dsimp only
      split
      · exact hcd _ hpres
      · exact hcd snd hpres

/-- In a fresh two-key pool, a rate-limited first attempt is retried with
the second key: the analysis succeeds with the second response, exactly two
endpoint calls are made, and the first key is left on a 24-hour cooldown. -/
theorem analyze_video_rate_limit_retry (k1 k2 mdl fname e c : String) (now2 : ℚ)
    (oracle : Nat → CallResult)
    (hnow : 0 ≤ now2)
    (he : isRateLimitError e = true)
    (h0 : oracle 0 = .failure e)
    (h1 : oracle 1 = .success c) :
    gemini_analyze_video ⟨[k1, k2], 0, [], true, mdl, none⟩ now2 oracle (fun _ => none)
      mdl fname none =
      (⟨c, mdl, "gemini", fname, none⟩,
       ⟨[k1, k2], 1, [(0, now2 + 86400)], true, mdl, some k2⟩, 2) := by
  have hn86 : ¬ (now2 + 86400 ≤ now2) := by linarith
  have hrange : List.range 2 = [0, 1] := rfl
  simp [gemini_analyze_video, analyzeVideoGo, get_client, get_current_api_key,
    findAvailableIdx, cooldownOf, setCooldown, rotate_key_on_rate_limit,
    hrange, List.lookup, List.getD, h0, h1, he, hnow, hn86]


/-- Same retry scenario with a video path supplied: the rotation triggers a
re-upload, and the retried call succeeds against the re-uploaded file. -/
theorem analyze_video_retry_reattaches_video (k1 k2 mdl fname newName vp e c : String)
    (now2 : ℚ) (oracle : Nat → CallResult)
    (hnow : 0 ≤ now2)
    (he : isRateLimitError e = true)
    (h0 : oracle 0 = .failure e)
    (h1 : oracle 1 = .success c) :
    gemini_analyze_video ⟨[k1, k2], 0, [], true, mdl, none⟩ now2 oracle
      (fun _ => some newName) mdl fname (some vp) =
      (⟨c, mdl, "gemini", newName, none⟩,
       ⟨[k1, k2], 1, [(0, now2 + 86400)], true, mdl, some k2⟩, 2) := by
  have hn86 : ¬ (now2 + 86400 ≤ now2) := by linarith
  have hrange : List.range 2 = [0, 1] := rfl
  simp [gemini_analyze_video, analyzeVideoGo, get_client, get_current_api_key,
    findAvailableIdx, cooldownOf, setCooldown, rotate_key_on_rate_limit,
    hrange, List.lookup, List.getD, h0, h1, he, hnow, hn86]

/-! ## The claims -/

/-- C1: the Pre-Filter is supposed to place a candidate tip whose timestamp
exceeds the window exit bound into the rejected list with an explanatory
reason.  On the code, the rejection record is built with `confidence=0`
while the `CS2RemovedTip` contract requires `confidence ≥ 1`, so the very
first rejection raises a pydantic `ValidationError` instead: at a window
ending (by death) at 30 s and a tip at 45 s, `_pre_filter_by_alive_time`
aborts with the validation error and produces no rejected list at all. -/
theorem c1_prefilter_rejection_raises :
    aliveBound c1Window < 45 ∧
    pre_filter_by_alive_time [c1Tip] [c1Window] =
      .error (.validationError ("CS2RemovedTip.confidence: input should be between 1 and 10")) := by
  decide

/-- C2: the Validator parser is claimed to return only tips of confidence
at least 8 and to discard lower-confidence tips into the rejected list.
On the code, `_parse_verification_response` performs no confidence check
(the threshold lives only in the prompt text): a response whose
`verified_tips` entry carries confidence 3 is returned verbatim in
`verified_tips`, with `removed_tips` empty. -/
theorem c2_confidence_threshold_not_enforced :
    (parse_verification_response c2Response).toOption.map
      (fun o => (o.verified_tips.map (fun t => t.confidence), o.removed_tips)) =
      some ([3], []) := by
  decide

/-- C3 counterexample: the Timeline Builder does not validate its input
ticks, so a demo dataset whose second round has `end_tick < start_tick`
yields a window with `start_seconds = 200 > 100 = end_seconds`, refuting
the claim as stated over every replay dataset. -/
theorem c3_window_containment_counterexample :
    (build_rounds_timeline_from_demo c3Demo none).map
      (fun e => (e.start_seconds, e.end_seconds)) = [(0, 100), (200, 100)] ∧
    ¬ ((200 : ℚ) ≤ 100) := by
  constructor
  · simp only [c3Demo, build_rounds_timeline_from_demo]
    rw [if_neg (by simp)]
    norm_num [mkTimelineEntry, resolveVst, resolveTickrate, resolvePovSide, resolvePov,
      deathByRound, pyMax, List.lookup]
  · norm_num

/-- C3 (amended): for demo data with a positive tick rate, rounds whose
`start_tick ≤ end_tick`, and kill ticks lying within their round's tick
span, every produced window satisfies `start_seconds ≤ end_seconds`, and
when `death_seconds` is set it lies between them. -/
theorem c3_window_containment (demo : DemoData) (pov : Option String)
    (htr : 0 < resolveTickrate demo)
    (hse : ∀ r ∈ demo.rounds, r.start_tick.getD 0 ≤ r.end_tick.getD 0)
    (hk : ∀ k ∈ demo.kills, ∀ r ∈ demo.rounds,
      k.round_num.getD 0 = r.round_num.getD 0 →
      r.start_tick.getD 0 ≤ k.tick.getD 0 ∧ k.tick.getD 0 ≤ r.end_tick.getD 0) :
    ∀ e ∈ build_rounds_timeline_from_demo demo pov,
      e.start_seconds ≤ e.end_seconds ∧
      ∀ d, e.death_seconds = some d → e.start_seconds ≤ d ∧ d ≤ e.end_seconds := by
  intro e he
  unfold build_rounds_timeline_from_demo at he
  by_cases hr0 : demo.rounds = []
  · rw [if_pos hr0] at he
    simp at he
  · rw [if_neg hr0] at he
    obtain ⟨r, hr, rfl⟩ := List.mem_map.mp he
    constructor
    · simp only [mkTimelineEntry]
      exact clampedSeconds_mono htr (hse r hr)
    · intro d hd
      simp only [mkTimelineEntry] at hd ⊢
      cases hl : (deathByRound demo pov).lookup (r.round_num.getD 0) with
      | none => rw [hl] at hd; simp at hd
      | some dt =>
        rw [hl] at hd
        dsimp only at hd
        by_cases h0 : dt = 0
        · rw [if_pos h0] at hd; simp at hd
        · rw [if_neg h0] at hd
          simp only [Option.some_inj] at hd
          obtain ⟨k, hkm, hkr, hkt⟩ := deathByRound_lookup_mem hl
          obtain ⟨hlo, hhi⟩ := hk k hkm r hr hkr
          subst hd
          rw [hkt] at hlo hhi
          exact ⟨clampedSeconds_mono htr hlo, clampedSeconds_mono htr hhi⟩

/-- C3 witness: the amended containment theorem applied to a concrete
well-formed demo. -/
theorem c3_window_containment_witness :
    (0 < resolveTickrate c3wDemo) ∧
    (∀ e ∈ build_rounds_timeline_from_demo c3wDemo (some ("Bob")),
      e.start_seconds ≤ e.end_seconds ∧
      ∀ d, e.death_seconds = some d → e.start_seconds ≤ d ∧ d ≤ e.end_seconds) :=
  ⟨by decide, c3_window_containment c3wDemo (some ("Bob")) (by decide) (by decide) (by decide)⟩

/-- C4: when the model response contains no parsable JSON structure, the
Observer parser returns an empty tip list and the Validator parser returns
zero verified tips with a non-empty fixed fallback summary; neither raises. -/
theorem c4_parse_failure_soft (t : String) (h : extract_json t = none) :
    cs2_observer_parse_response t = .ok ⟨[], []⟩ ∧
    parse_verification_response t = .ok verificationFallback ∧
    verificationFallback.summary_text ≠ "" := by
  refine ⟨?_, ?_, by decide⟩
  · unfold cs2_observer_parse_response
    rw [h]
  · unfold parse_verification_response
    rw [h]

/-- C4 witness: both stages degrade softly on a concrete free-text reply. -/
theorem c4_parse_failure_soft_witness :
    extract_json c4Response = none ∧
    (cs2_observer_parse_response c4Response = .ok ⟨[], []⟩ ∧
      parse_verification_response c4Response = .ok verificationFallback ∧
      verificationFallback.summary_text ≠ "") :=
  ⟨by rfl, c4_parse_failure_soft c4Response (by rfl)⟩

/-- C5: when every credential of a non-empty pool is cooling down, both
gateway operations return the exhaustion error response untouched — state
unchanged and zero endpoint calls made. -/
theorem c5_all_keys_cooldown_exhausted (s : GeminiState) (now : ℚ)
    (hne : s.api_keys ≠ [])
    (hc : ∀ i < s.api_keys.length, now < cooldownOf s i) :
    gemini_generate s now =
      (.ok ⟨"", s.model, "gemini",
        some ("GEMINI_API_KEY not configured or all keys on cooldown")⟩, s, 0) ∧
    ∀ oracle uploads modelName fname videoPath,
      gemini_analyze_video s now oracle uploads modelName fname videoPath =
        (⟨"", s.model, "gemini", fname,
          some ("GEMINI_API_KEY not configured or all keys on cooldown")⟩, s, 0) := by
  have hg := get_current_api_key_none s now hne hc
  constructor
  · unfold gemini_generate
    rw [hg]
    simp
  · intro oracle uploads modelName fname videoPath
    unfold gemini_analyze_video
    rw [hg]
    simp

/-- C5 witness: a two-key pool with both keys cooling at time 500 fails
with the exhaustion response and makes no endpoint call. -/
theorem c5_all_keys_cooldown_exhausted_witness :
    (c5State.api_keys ≠ [] ∧ ∀ i < c5State.api_keys.length, (500 : ℚ) < cooldownOf c5State i) ∧
    gemini_generate c5State 500 =
      (.ok ⟨"", c5State.model, "gemini",
        some ("GEMINI_API_KEY not configured or all keys on cooldown")⟩, c5State, 0) ∧
    gemini_analyze_video c5State 500 c6Oracle (fun _ => none) ("gemini-3-pro-preview")
        ("files/v0") none =
      (⟨"", c5State.model, "gemini", "files/v0",
        some ("GEMINI_API_KEY not configured or all keys on cooldown")⟩, c5State, 0) :=
  ⟨⟨by decide, by decide⟩,
    (c5_all_keys_cooldown_exhausted c5State 500 (by decide) (by decide)).1,
    (c5_all_keys_cooldown_exhausted c5State 500 (by decide) (by decide)).2
      c6Oracle (fun _ => none) ("gemini-3-pro-preview") ("files/v0") none⟩

/-- C6 counterexample: with a single-credential pool, a rate-limit signal
records no cooldown at all (the deadline for the key stays 0) and reports
that no retry is possible, refuting the claim for every pool state. -/
theorem c6_single_key_counterexample :
    rotate_key_on_rate_limit c6SingleKey 1000 = (c6SingleKey, false) ∧
    cooldownOf (rotate_key_on_rate_limit c6SingleKey 1000).1 0 = 0 ∧
    ¬ ((0 : ℚ) = 1000 + 86400) := by
  refine ⟨by decide, by decide, by norm_num⟩

/-- C6 (amended): with at least two credentials, a rate-limit rotation puts
the current credential on a 24-hour (86400 s) cooldown; and in a fresh
two-key pool a rate-limited first video-analysis attempt is retried once
with the next credential, succeeding with the second response after exactly
two endpoint calls, the first key left cooling for 24 hours — both without
a video path and with one, in which case the retried call runs against the
re-uploaded file. -/
theorem c6_rate_limit_cooldown_and_retry (s : GeminiState) (now : ℚ)
    (k1 k2 mdl fname newName vp e c : String) (now2 : ℚ) (oracle : Nat → CallResult)
    (h2 : 2 ≤ s.api_keys.length)
    (hnow : 0 ≤ now2)
    (he : isRateLimitError e = true)
    (h0 : oracle 0 = .failure e)
    (h1 : oracle 1 = .success c) :
    cooldownOf (rotate_key_on_rate_limit s now).1 s.current_key_index = now + 86400 ∧
    gemini_analyze_video ⟨[k1, k2], 0, [], true, mdl, none⟩ now2 oracle (fun _ => none)
      mdl fname none =
      (⟨c, mdl, "gemini", fname, none⟩,
       ⟨[k1, k2], 1, [(0, now2 + 86400)], true, mdl, some k2⟩, 2) ∧
    gemini_analyze_video ⟨[k1, k2], 0, [], true, mdl, none⟩ now2 oracle
      (fun _ => some newName) mdl fname (some vp) =
      (⟨c, mdl, "gemini", newName, none⟩,
       ⟨[k1, k2], 1, [(0, now2 + 86400)], true, mdl, some k2⟩, 2) :=
  ⟨rotate_sets_cooldown s now h2,
    analyze_video_rate_limit_retry k1 k2 mdl fname e c now2 oracle hnow he h0 h1,
    analyze_video_retry_reattaches_video k1 k2 mdl fname newName vp e c now2 oracle
      hnow he h0 h1⟩

/-- C6 witness: cooldown-and-retry at a concrete two-key pool, a concrete
429 error and a concrete successful second response. -/
theorem c6_rate_limit_cooldown_and_retry_witness :
    (2 ≤ c5State.api_keys.length ∧ (0 : ℚ) ≤ 100 ∧
      isRateLimitError ("429 rate limit exceeded for this key") = true ∧
      c6Oracle 0 = .failure ("429 rate limit exceeded for this key") ∧
      c6Oracle 1 = .success ("Round-by-round analysis text")) ∧
    cooldownOf (rotate_key_on_rate_limit c5State 7).1 c5State.current_key_index = 7 + 86400 ∧
    gemini_analyze_video ⟨["key-a", "key-b"], 0, [], true, "gemini-3-pro-preview", none⟩
        100 c6Oracle (fun _ => none) ("gemini-3-pro-preview") ("files/v1") none =
      (⟨"Round-by-round analysis text", "gemini-3-pro-preview", "gemini", "files/v1", none⟩,
       ⟨["key-a", "key-b"], 1, [(0, (100 : ℚ) + 86400)], true, "gemini-3-pro-preview",
         some ("key-b")⟩, 2) ∧
    gemini_analyze_video ⟨["key-a", "key-b"], 0, [], true, "gemini-3-pro-preview", none⟩
        100 c6Oracle (fun _ => some ("files/v2")) ("gemini-3-pro-preview") ("files/v1")
        (some ("/tmp/match.mp4")) =
      (⟨"Round-by-round analysis text", "gemini-3-pro-preview", "gemini", "files/v2", none⟩,
       ⟨["key-a", "key-b"], 1, [(0, (100 : ℚ) + 86400)], true, "gemini-3-pro-preview",
         some ("key-b")⟩, 2) :=
  ⟨⟨by decide, by decide, by decide, by rfl, by rfl⟩,
    c6_rate_limit_cooldown_and_retry c5State 7 ("key-a") ("key-b") ("gemini-3-pro-preview")
      ("files/v1") ("files/v2") ("/tmp/match.mp4") ("429 rate limit exceeded for this key")
      ("Round-by-round analysis text")
      100 c6Oracle (by decide) (by decide) (by decide) (by rfl) (by rfl)⟩

/-- C7 counterexample: a parsed Validator response whose summary has 60
characters is returned unchanged, outside the claimed roughly 100-300
character range. -/
theorem c7_summary_range_counterexample :
    (parse_verification_response c7Response).toOption.map
      (fun o => o.summary_text.length) = some 60 ∧ ¬ (100 ≤ 60) := by
  decide

/-- C7 (amended): for every parsed Validator response, the summary length
lies in [50, 400]: summaries shorter than 50 characters are replaced by a
fixed fallback, longer than 400 truncated to 397 characters plus an
ellipsis, anything in between passed through — never re-queried. -/
theorem c7_summary_clamped (j : Json) (out : CS2ValidatorOutput)
    (h : parse_verification_data j = .ok out) :
    50 ≤ out.summary_text.length ∧ out.summary_text.length ≤ 400 := by
  cases j with
  | obj fs =>
    simp only [parse_verification_data] at h
    cases h1 : iterElems ((fs.lookup ("verified_tips")).getD (.arr [])) with
    | error e => rw [h1] at h; exact absurd h (by simp)
    | ok ventries =>
      rw [h1] at h
      dsimp only at h
      cases h2 : iterElems ((fs.lookup ("removed_tips")).getD (.arr [])) with
      | error e => rw [h2] at h; exact absurd h (by simp)
      | ok rentries =>
        rw [h2] at h
        dsimp only at h
        cases h3 : resolveSummary (fs.lookup ("summary_text")) with
        | error e => rw [h3] at h; exact absurd h (by simp)
        | ok summ =>
          rw [h3] at h
          dsimp only at h
          obtain rfl := Except.ok.inj h
          exact resolveSummary_bounds _ _ h3
  | null => simp [parse_verification_data] at h
  | bool b => simp [parse_verification_data] at h
  | num n => simp [parse_verification_data] at h
  | str s => simp [parse_verification_data] at h
  | arr xs => simp [parse_verification_data] at h

/-- C7 witness: the clamp theorem applied to a parsed response with a
120-character summary. -/
theorem c7_summary_clamped_witness :
    parse_verification_data c7wData = .ok c7wOut ∧
    (50 ≤ c7wOut.summary_text.length ∧ c7wOut.summary_text.length ≤ 400) :=
  ⟨by decide, c7_summary_clamped c7wData c7wOut (by decide)⟩

/-- C8 counterexample: the Validator stage returns its verified tips in
the order the model listed them — a response listing timestamps 100 s then
50 s yields a final tip list ordered [100, 50], not ascending. -/
theorem c8_final_order_counterexample :
    (cs2_verify_result [] [] c8Response).toOption.map
      (fun o => o.tips.map (fun t => (t.timestamp.map (fun ts => ts.video_seconds)).getD 0)) =
      some [100, 50] ∧
    ¬ List.Sorted (· ≤ ·) [(100 : Int), 50] := by
  refine ⟨by decide, by decide⟩

/-- C8 (amended): only the Observer stage sorts — its candidate tips are
returned ordered by timestamp ascending (tips without a timestamp keyed at
0); the final verified tips keep the Validator response order. -/
theorem c8_observer_tips_sorted (t : String) (out : CS2ObserverOutput)
    (h : cs2_observer_parse_response t = .ok out) :
    List.Sorted (fun a b => observerSortKey a ≤ observerSortKey b) out.tips := by
  haveI htot : IsTotal CS2ObserverTip (fun a b => observerSortKey a ≤ observerSortKey b) :=
    ⟨fun a b => le_total _ _⟩
  haveI htrans : IsTrans CS2ObserverTip (fun a b => observerSortKey a ≤ observerSortKey b) :=
    ⟨fun _ _ _ hab hbc => le_trans hab hbc⟩
  unfold cs2_observer_parse_response at h
  cases he : extract_json t with
  | none =>
    rw [he] at h
    obtain rfl := Except.ok.inj h
    exact List.sorted_nil
  | some j =>
    rw [he] at h
    dsimp only at h
    cases hf : jsonFalsy j with
    | true =>
      rw [hf] at h
      rw [if_pos rfl] at h
      obtain rfl := Except.ok.inj h
      exact List.sorted_nil
    | false =>
      rw [hf] at h
      rw [if_neg (by simp)] at h
      cases j with
      | obj fs =>
        simp only [parse_observer_data] at h
        cases hi : iterElems ((fs.lookup ("tips")).getD (.arr [])) with
        | error e => rw [hi] at h; exact absurd h (by simp)
        | ok entries =>
          rw [hi] at h
          dsimp only at h
          obtain rfl := Except.ok.inj h
          exact List.sorted_insertionSort _ _
      | null => simp [parse_observer_data] at h
      | bool b => simp [parse_observer_data] at h
      | num n => simp [parse_observer_data] at h
      | str s => simp [parse_observer_data] at h
      | arr xs => simp [parse_observer_data] at h

/-- C8 witness: a reply listing tips at 9 s then 4 s parses to the sorted
candidate list [4 s, 9 s]. -/
theorem c8_observer_tips_sorted_witness :
    cs2_observer_parse_response c8wResponse = .ok c8wOut ∧
    List.Sorted (fun a b => observerSortKey a ≤ observerSortKey b) c8wOut.tips :=
  ⟨by decide, c8_observer_tips_sorted c8wResponse c8wOut (by decide)⟩

/-- C9: the Timeline Builder is a pure function — equal demo data and equal
POV arguments give identical window lists (the source only adds logging). -/
theorem c9_timeline_deterministic (d1 d2 : DemoData) (p1 p2 : Option String)
    (hd : d1 = d2) (hp : p1 = p2) :
    build_rounds_timeline_from_demo d1 p1 = build_rounds_timeline_from_demo d2 p2 := by
  rw [hd, hp]

/-- C9 witness: determinism at a concrete demo dataset. -/
theorem c9_timeline_deterministic_witness :
    build_rounds_timeline_from_demo c9Demo (some ("Ann")) =
      build_rounds_timeline_from_demo c9Demo (some ("Ann")) :=
  c9_timeline_deterministic c9Demo c9Demo (some ("Ann")) (some ("Ann")) rfl rfl

/-- C10: when the recorded death tick for a round is 0, the builder leaves
that round's `death_seconds` and `death_time` unset (the `if death_tick:`
truthiness check treats 0 as no death), and the full round stays in the
timeline as a window with no exit bound. -/
theorem c10_zero_death_tick_unset (demo : DemoData) (pov : Option String) (r : RoundRec)
    (hr : r ∈ demo.rounds)
    (hz : (deathByRound demo pov).lookup (r.round_num.getD 0) = some 0) :
    ((mkTimelineEntry (deathByRound demo pov) (resolveVst demo) (resolveTickrate demo)
        (resolvePovSide demo pov) r).death_seconds = none ∧
      (mkTimelineEntry (deathByRound demo pov) (resolveVst demo) (resolveTickrate demo)
        (resolvePovSide demo pov) r).death_time = none) ∧
    mkTimelineEntry (deathByRound demo pov) (resolveVst demo) (resolveTickrate demo)
        (resolvePovSide demo pov) r ∈ build_rounds_timeline_from_demo demo pov := by
  refine ⟨⟨?_, ?_⟩, ?_⟩
  · simp [mkTimelineEntry, hz]
  · simp [mkTimelineEntry, hz]
  · unfold build_rounds_timeline_from_demo
    rw [if_neg (List.ne_nil_of_mem hr)]
    exact List.mem_map_of_mem _ hr

/-- C10 witness: the zero-tick death rule at a concrete demo. -/
theorem c10_zero_death_tick_unset_witness :
    (c10Round ∈ c10Demo.rounds ∧
      (deathByRound c10Demo none).lookup (c10Round.round_num.getD 0) = some 0) ∧
    (((mkTimelineEntry (deathByRound c10Demo none) (resolveVst c10Demo)
        (resolveTickrate c10Demo) (resolvePovSide c10Demo none) c10Round).death_seconds = none ∧
      (mkTimelineEntry (deathByRound c10Demo none) (resolveVst c10Demo)
        (resolveTickrate c10Demo) (resolvePovSide c10Demo none) c10Round).death_time = none) ∧
      mkTimelineEntry (deathByRound c10Demo none) (resolveVst c10Demo)
        (resolveTickrate c10Demo) (resolvePovSide c10Demo none) c10Round ∈
        build_rounds_timeline_from_demo c10Demo none) :=
  ⟨⟨by decide, by decide⟩,
    c10_zero_death_tick_unset c10Demo none c10Round (by decide) (by decide)⟩
